import Mathlib

/-!
# Verification of the case-lookup and privacy-redaction engine

Shallow embedding of `src/actions/actions.py` (repository `paloma-bot`):
the record-store loader, field resolver, identifier normalizer,
minor-status classifier, lookup orchestrator (`ActionLookupCedula.run`),
and the identifier form validator
(`ValidateConsultaProcesoForm.validate_numero_identificacion`).

Conventions of the embedding:
* A CSV record (`csv.DictReader` row) is a `Row`: an association list from
  column name to optional cell value; `row[k] is not None` is modelled by
  the looked-up value being `some`.
* Python `str.strip()` is modelled by `pyStrip` (drop whitespace at both
  ends).
* `unicodedata`-based accent stripping plus lower-casing
  (`_strip_accents_lower`) is modelled character-wise by
  `stripAccentsLower`, faithful on ASCII and the Spanish accented letters
  that occur in the source's comparison sets.
* Outbound `dispatcher.utter_message` calls are modelled structurally by
  the inductive `Frag`; `render` reproduces the exact message text and
  buttons the source builds for each fragment shape.
* Returned Rasa events are modelled by `Event`; `SlotSet(slot, None)` is
  `Event.slotSet slot none`.
* The `try/except` wrapper of `ActionLookupCedula.run` is modelled by a
  fault-injection flag: `run rows cedIn fault` with `fault = true` is the
  execution in which an unexpected exception is raised inside the `try`
  block, handled by the `except` branch (source lines 237-241). All Lean
  functions here are total, which models that no exception ever escapes.
-/

/-- A CSV row: ordered association list from column name to optional value. -/
def Row : Type := List (String × Option String)

instance : DecidableEq Row := by unfold Row; infer_instance

/-- Dictionary access: `some v` when key `k` is present (first occurrence),
`v` itself optional (`row[k] is not None` is `v = some _`). -/
def lookupRow (row : Row) (k : String) : Option (Option String) :=
  (row.find? (fun p => p.1 == k)).map Prod.snd

/-- Python `str.strip()` on a character list: drop whitespace from both ends. -/
def pyStripList (l : List Char) : List Char :=
  List.rdropWhile Char.isWhitespace (List.dropWhile Char.isWhitespace l)

/-- Python `str.strip()`. -/
def pyStrip (s : String) : String :=
  String.mk (pyStripList s.data)

/-- Source `_digits` on an already-string value: `re.sub(r"\D", "", s)`,
keeping exactly the decimal-digit characters. -/
def digitsStr (s : String) : String :=
  String.mk (s.data.filter Char.isDigit)

/-- Source `_digits(s)` where `s` may be `None`: `re.sub(r"\D", "", str(s or ""))`. -/
def digits (s : Option String) : String :=
  digitsStr (s.getD "")

/-- Source `_get(row, keys)`: first value under any candidate key that is present,
not `None`, and non-blank after stripping; `""` when none qualifies.
The returned value is the stripped one, as in the source. -/
def getF (row : Row) (keys : List String) : String :=
  match keys with
  | [] => ""
  | k :: ks =>
    match lookupRow row k with
    | some (some x) =>
      let v := pyStrip x
      if v ≠ "" then v else getF row ks
    | _ => getF row ks

/-- Source `_val(x)`: the stripped value, or the sentinel `"NA"` when blank. -/
def val (x : String) : String :=
  let t := pyStrip x
  if t = "" then "NA" else t

/-- Python `int(s)` on a string made only of digits and `-`:
`some` of its value for an optional leading `-` followed by a nonempty
digit run, `none` otherwise (models the `ValueError` branch). -/
def pyInt (s : String) : Option Int :=
  match s.data with
  | [] => none
  | '-' :: rest =>
    if rest ≠ [] ∧ rest.all Char.isDigit then
      some (-(Int.ofNat (rest.foldl (fun a c => a * 10 + (c.toNat - '0'.toNat)) 0)))
    else none
  | l =>
    if l.all Char.isDigit then
      some (Int.ofNat (l.foldl (fun a c => a * 10 + (c.toNat - '0'.toNat)) 0))
    else none

/-- Source `_to_int(x)`: strip every character other than digits and `-`,
then parse with `int(...)`, `None` on failure. -/
def toIntFiltered (x : String) : Option Int :=
  pyInt (String.mk (x.data.filter (fun c => c.isDigit || c == '-')))

/-- One character of `_strip_accents_lower`: NFKD-decompose, drop combining
marks, lower-case. Faithful for ASCII and the Spanish accented letters the
source compares against; other characters are lower-cased unchanged. -/
def stripAccentsLowerChar (c : Char) : Char :=
  if c = 'á' ∨ c = 'Á' ∨ c = 'à' ∨ c = 'À' ∨ c = 'ä' ∨ c = 'Ä' ∨ c = 'â' ∨ c = 'Â' then 'a'
  else if c = 'é' ∨ c = 'É' ∨ c = 'è' ∨ c = 'È' ∨ c = 'ë' ∨ c = 'Ë' ∨ c = 'ê' ∨ c = 'Ê' then 'e'
  else if c = 'í' ∨ c = 'Í' ∨ c = 'ì' ∨ c = 'Ì' ∨ c = 'ï' ∨ c = 'Ï' ∨ c = 'î' ∨ c = 'Î' then 'i'
  else if c = 'ó' ∨ c = 'Ó' ∨ c = 'ò' ∨ c = 'Ò' ∨ c = 'ö' ∨ c = 'Ö' ∨ c = 'ô' ∨ c = 'Ô' then 'o'
  else if c = 'ú' ∨ c = 'Ú' ∨ c = 'ù' ∨ c = 'Ù' ∨ c = 'ü' ∨ c = 'Ü' ∨ c = 'û' ∨ c = 'Û' then 'u'
  else if c = 'ñ' ∨ c = 'Ñ' then 'n'
  else c.toLower

/-- Source `_strip_accents_lower(s)`: `stripAccentsLowerChar` applied to every
character. -/
def stripAccentsLower (s : String) : String :=
  String.mk (s.data.map stripAccentsLowerChar)

-- Header alias groups (source constants `H_*`).

def H_ID : List String :=
  ["Número de identificación", "Numero de identificacion", "numero_identificacion",
   "Cédula", "Cedula", "cedula"]

def H_TIPO_DOC : List String :=
  ["Tipo de documento", "tipo_documento", "Tipo doc", "tipo_doc", "Documento"]

def H_USR : List String := ["Nombre completo", "Usuario", "nombre_completo"]

def H_DEFENSOR : List String := ["Defensor asignado", "defensor_asignado"]

def H_CORREO : List String := ["Correo", "correo", "email", "e-mail"]

def H_SUP : List String := ["Supervisor", "supervisor"]

def H_SUP_MAIL : List String :=
  ["Correo supervisor", "Correo Supervisor", "correo_supervisor", "email_supervisor"]

def H_RAD : List String := ["Número de radicado", "Numero de radicado", "radicado"]

def H_DEP : List String := ["Departamento"]

def H_MUN : List String := ["Municipio"]

def H_JUZ : List String := ["Juzgado"]

def H_INICIO : List String := ["Inicio de proceso", "Inicio del proceso"]

def H_DELITO : List String := ["Delito"]

def H_CAPT : List String := ["Capturado"]

def H_TIPO_CAP : List String := ["Tipo de captura"]

def H_MED : List String := ["Medida impuesta"]

def H_CENTRO : List String :=
  ["Centro carcelario", "Centro de reclusión", "Centro de reclusion"]

def H_ES_MENOR : List String :=
  ["Es menor", "es_menor", "Menor", "menor", "Menor de edad", "menor_de_edad"]

def H_EDAD : List String := ["Edad", "edad"]

/-- The document-type values that classify the subject as a minor
(source set literal in `_row_is_minor_defendido`). -/
def tiSet : List String := ["ti", "tarjeta de identidad", "tarjeta_identidad", "tarjeta identidad"]

/-- The explicit minor-flag values treated as truthy (source set literal). -/
def minorFlagSet : List String := ["si", "sí", "true", "1", "x", "yes"]

/-- Source `_row_is_minor_defendido(row)`: sequential early-return on document type,
then parseable age in `[0, 18)`, then explicit flag; `False` otherwise. -/
def rowIsMinorDefendido (row : Row) : Bool :=
  let tipo := stripAccentsLower (getF row H_TIPO_DOC)
  if tipo ∈ tiSet then true
  else
    let edadOk :=
      match toIntFiltered (getF row H_EDAD) with
      | some edad => decide (0 ≤ edad) && decide (edad < 18)
      | none => false
    if edadOk then true
    else
      let flag := stripAccentsLower (getF row H_ES_MENOR)
      if flag ∈ minorFlagSet then true else false

-- ------------------------- Record store loader -------------------------

/-- The process-wide loader cache (`_ROWS_CACHE`). -/
structure LoadState where
  rowsCache : Option (List Row)
deriving DecidableEq

/-- Source `_load_rows()`. The backing CSV is abstracted as
`file : Option (List Row)`: `none` when `DB_PATH.exists()` is false,
`some rows` for the parsed `csv.DictReader` content otherwise. Returns the
rows, the updated cache, and the log lines produced. A missing file yields
the empty store and an error-level diagnostic; the function is total, so no
exception is raised on that path. -/
def loadRows (st : LoadState) (file : Option (List Row)) :
    List Row × LoadState × List String :=
  match st.rowsCache with
  | some cache => (cache, st, [])
  | none =>
    match file with
    | none => ([], ⟨some []⟩, ["[lookup] No existe el CSV en: DB_PATH"])
    | some rows => (rows, ⟨some rows⟩, ["[lookup] Cargadas filas desde DB_PATH"])

-- ------------------------- Lookup orchestrator -------------------------

/-- A (title, payload) button attached to an outbound message. -/
structure MsgButton where
  title : String
  payload : String
deriving DecidableEq

/-- The shapes of outbound message fragments `ActionLookupCedula.run` can
emit, one constructor per `dispatcher.utter_message` call site, carrying the
record data interpolated at that site. `render` reproduces the exact text. -/
inductive Frag
  /-- Fragment "No puedo acceder a la base en este momento..." (store empty). -/
  | serviceUnavailable
  /-- Fragment "No recibí el número de identificación..." (blank identifier). -/
  | missingId
  /-- Fragment "No encontré registros con esa cédula..." with two buttons. -/
  | notFound
  /-- All-minor redacted summary: notice + defender + supervisor only. -/
  | minorSummary (defStr supStr : String)
  /-- Mixed-case header: defender line, optional supervisor line. -/
  | adultHeader (defStr : String) (supLine : Option String)
  /-- Per-case redacted card for a minor record. -/
  | minorCard (i : Nat) (defStr supStr : String)
  /-- Per-case full detail card for a non-minor record. -/
  | detailCard (i : Nat) (rad dep mun juz inicio delito capt tcap med centro : String)
  /-- Final follow-up prompt with two buttons. -/
  | followUp
  /-- Generic "try again later" message from the exception handler. -/
  | tryAgain
deriving DecidableEq

/-- The exact message text and buttons the source builds for each fragment. -/
def render : Frag → String × List MsgButton
  | .serviceUnavailable =>
    ("No puedo acceder a la base en este momento. Intenta más tarde.", [])
  | .missingId =>
    ("No recibí el número de identificación. ¿Puedes indicarlo de nuevo?", [])
  | .notFound =>
    ("No encontré registros con esa cédula. ¿Quieres intentar de nuevo o hablar con un asesor?",
     [⟨"🔁 Intentar de nuevo", "/consultar_proceso"⟩,
      ⟨"👤 Hablar con una persona", "/hablar_con_humano"⟩])
  | .minorSummary defStr supStr =>
    ("**Caso con persona menor de edad.**\n**Defensor(a):** " ++ defStr ++
       "\n**Supervisor:** " ++ supStr, [])
  | .adultHeader defStr supLine =>
    ("**Defensor asignado:** " ++ defStr ++
       (match supLine with
        | some supStr => "\n**Supervisor:** " ++ supStr
        | none => ""), [])
  | .minorCard i defStr supStr =>
    ("### Proceso " ++ toString i ++ "\n**Caso con persona menor de edad.**\n**Defensor(a):** " ++
       defStr ++ "\n**Supervisor:** " ++ supStr, [])
  | .detailCard i rad dep mun juz inicio delito capt tcap med centro =>
    ("### Proceso " ++ toString i ++ "\n**Radicado:** `" ++ rad ++ "`\n" ++
       "- **Departamento:** " ++ dep ++ "\n" ++
       "- **Municipio:** " ++ mun ++ "\n" ++
       "- **Juzgado:** " ++ juz ++ "\n" ++
       "- **Inicio de proceso:** " ++ inicio ++ "\n" ++
       "- **Delito:** " ++ delito ++ "\n" ++
       "- **Capturado:** " ++ capt ++ (if tcap ≠ "NA" then " (" ++ tcap ++ ")" else "") ++ "\n" ++
       "- **Medida:** " ++ med ++ "\n" ++
       "- **Centro carcelario:** " ++ centro ++ " \n", [])
  | .followUp =>
    ("\n¿Quieres hacer otra consulta o volver al menú?",
     [⟨"🔁 Consultar otro número de documento", "/consultar_proceso"⟩,
      ⟨"🏠 Menú principal", "/saludar"⟩])
  | .tryAgain =>
    ("Ocurrió un problema al consultar tu proceso. Intenta de nuevo en un momento.", [])

/-- A Rasa event returned by the action. -/
inductive Event
  | slotSet (slot : String) (value : Option String)
deriving DecidableEq

/-- Event `SlotSet("numero_identificacion", None)`. -/
def slotClear : Event := .slotSet "numero_identificacion" none

/-- Everything `ActionLookupCedula.run` observably produces: the emitted
fragments in order, the returned event list, and the log lines. -/
structure RunOut where
  frags : List Frag
  events : List Event
  logs : List String
deriving DecidableEq

/-- The Match Set: rows whose digit-normalized identifier field equals the
digit-normalized input (source line 149). -/
def matchesFor (rows : List Row) (ced : String) : List Row :=
  rows.filter (fun r => digitsStr (getF r H_ID) == ced)

/-- Source `def_str`: defender display string from the first matching row
(source lines 162-167). -/
def defenderStr (m : Row) : String :=
  let dNombre := val (getF m H_DEFENSOR)
  let dCorreo := val (getF m H_CORREO)
  (if dNombre ≠ "NA" then dNombre else "No disponible") ++
    (if dCorreo ≠ "NA" then " (" ++ dCorreo ++ ")" else "")

/-- Source `sup_str`: supervisor display string from the first matching row
(source lines 164-168). -/
def supervisorStr (m : Row) : String :=
  let sNombre := val (getF m H_SUP)
  let sCorreo := val (getF m H_SUP_MAIL)
  (if sNombre ≠ "NA" then sNombre else "No disponible") ++
    (if sCorreo ≠ "NA" then " (" ++ sCorreo ++ ")" else "")

/-- The header's supervisor-line condition
`s_nombre != 'NA' or s_correo != 'NA'` (source line 185). -/
def supervisorAvailable (m : Row) : Bool :=
  val (getF m H_SUP) != "NA" || val (getF m H_SUP_MAIL) != "NA"

/-- The per-record card of the mixed branch (source lines 190-225): a
redacted card when the record is minor, the full detail card otherwise. -/
def cardFor (defStr supStr : String) (i : Nat) (r : Row) : Frag :=
  if rowIsMinorDefendido r then
    .minorCard i defStr supStr
  else
    .detailCard i (val (getF r H_RAD)) (val (getF r H_DEP)) (val (getF r H_MUN))
      (val (getF r H_JUZ)) (val (getF r H_INICIO)) (val (getF r H_DELITO))
      (val (getF r H_CAPT)) (val (getF r H_TIPO_CAP)) (val (getF r H_MED))
      (val (getF r H_CENTRO))

/-- The body of the `try` block of `ActionLookupCedula.run`
(source lines 137-235), with the loaded rows and the
`numero_identificacion` slot value as inputs. -/
def runBody (rows : List Row) (cedIn : Option String) : RunOut :=
  if rows.isEmpty then
    ⟨[.serviceUnavailable], [slotClear], []⟩
  else
    let ced := digits cedIn
    if ced = "" then
      ⟨[.missingId], [], []⟩
    else
      match matchesFor rows ced with
      | [] => ⟨[.notFound], [slotClear], []⟩
      | m :: rest =>
        let defStr := defenderStr m
        let supStr := supervisorStr m
        if (m :: rest).all rowIsMinorDefendido then
          ⟨[.minorSummary defStr supStr, .followUp], [slotClear], []⟩
        else
          ⟨.adultHeader defStr (if supervisorAvailable m then some supStr else none) ::
             ((m :: rest).enumFrom 1).map (fun p => cardFor defStr supStr p.1 p.2) ++
             [.followUp],
           [slotClear], []⟩

/-- Source `ActionLookupCedula.run` with its `try/except`: `fault = true` models an
unexpected exception raised inside the `try` block, which the `except`
branch (source lines 237-241) converts into logging, the generic try-again
fragment, and the slot-clear event. Totality of this function models that
no exception propagates to the invoker. -/
def run (rows : List Row) (cedIn : Option String) (fault : Bool) : RunOut :=
  if fault then
    ⟨[.tryAgain], [slotClear],
     ["[lookup] Error ejecutando action_lookup_cedula", "[lookup] traceback"]⟩
  else
    runBody rows cedIn

-- ---------------- Classifier signals (for claim statements) ----------------

/-- Signal 1 of the minor classifier: the resolved document type,
accent-stripped and lower-cased, is in `tiSet`. -/
def docTypeSignal (row : Row) : Bool :=
  decide (stripAccentsLower (getF row H_TIPO_DOC) ∈ tiSet)

/-- Signal 2: the resolved age field parses (via `_to_int`) to an integer
in `[0, 18)`; an unparseable age gives `false`. -/
def ageSignal (row : Row) : Bool :=
  match toIntFiltered (getF row H_EDAD) with
  | some edad => decide (0 ≤ edad) && decide (edad < 18)
  | none => false

/-- Signal 3: the resolved explicit minor flag, accent-stripped and
lower-cased, is in `minorFlagSet`. -/
def flagSignal (row : Row) : Bool :=
  decide (stripAccentsLower (getF row H_ES_MENOR) ∈ minorFlagSet)

-- ---------------- Field resolution, spec-level formulation ----------------

/-- One alias attempt, following the spec's words for the Field Resolver:
the value under `k` when present, not `None`, and non-blank after trimming
(returned trimmed); `none` otherwise. `getF` is proved equal to the first
success of `tryKey` over the alias group in listed order. -/
def tryKey (row : Row) (k : String) : Option String :=
  match lookupRow row k with
  | some (some x) =>
    let t := pyStrip x
    if t = "" then none else some t
  | _ => none

-- ---------------- Fragment-shape predicates ----------------

/-- Is this fragment the all-minor redacted summary? -/
def isRedactedSummary : Frag → Bool
  | .minorSummary _ _ => true
  | _ => false

/-- Is this fragment a per-case card (redacted or full detail)? -/
def isPerCaseCard : Frag → Bool
  | .minorCard _ _ _ => true
  | .detailCard _ _ _ _ _ _ _ _ _ _ _ => true
  | _ => false

/-- Does this fragment carry any case-specific field (case number,
department, municipality, court, date, offense, capture, measure,
facility)? Only the full detail card does. -/
def hasCaseFields : Frag → Bool
  | .detailCard _ _ _ _ _ _ _ _ _ _ _ => true
  | _ => false

-- ---------------- Concrete rows used by the witnesses ----------------

/-- A store row whose subject holds a `TI` document (a minor). -/
def wrowTI : Row :=
  [("Tipo de documento", some "TI"), ("Cédula", some "123.456.78"),
   ("Defensor asignado", some "Ana Perez"), ("Correo", some "ana@defensoria.gov")]

/-- A store row whose subject holds a `CC` document (an adult). -/
def wrowCC : Row :=
  [("Tipo de documento", some "CC"), ("Cédula", some "99999999"),
   ("Número de radicado", some "R-001"), ("Departamento", some "Antioquia"),
   ("Supervisor", some "Luis Gomez")]

-- ------------------------- Form validator -------------------------

/-- Source `ValidateConsultaProcesoForm.validate_numero_identificacion`
(source lines 303-311): digit-normalize the slot value; accept when the
digit string has 6 to 12 characters, storing it; otherwise re-prompt and
set the slot to `None`. The result is the new slot value and the list of
messages the validator utters. -/
def validateNumeroIdentificacion (slotValue : Option String) :
    Option String × List String :=
  let value := digits slotValue
  if 6 ≤ value.length ∧ value.length ≤ 12 then
    (some value, [])
  else
    (none, ["El número de identificación debe tener **entre 6 y 12 dígitos**. Intenta de nuevo."])

-- ------------------------- Helper lemmas -------------------------

theorem pyStripList_idem (l : List Char) : pyStripList (pyStripList l) = pyStripList l := by
  unfold pyStripList
  have hS : List.dropWhile Char.isWhitespace
      (List.rdropWhile Char.isWhitespace (List.dropWhile Char.isWhitespace l)) =
      List.rdropWhile Char.isWhitespace (List.dropWhile Char.isWhitespace l) := by
    rw [List.dropWhile_eq_self_iff]
    intro hl
    obtain ⟨t, ht⟩ := List.rdropWhile_prefix Char.isWhitespace (List.dropWhile Char.isWhitespace l)
    have hlA : 0 < (List.dropWhile Char.isWhitespace l).length := by
      rw [← ht, List.length_append]
      omega
    have hopt : (List.rdropWhile Char.isWhitespace (List.dropWhile Char.isWhitespace l))[0]? =
        (List.dropWhile Char.isWhitespace l)[0]? := by
      conv_rhs => rw [← ht]
      exact (List.getElem?_append_left hl).symm
    rw [List.getElem?_eq_getElem hl, List.getElem?_eq_getElem hlA] at hopt
    have hne := List.dropWhile_get_zero_not Char.isWhitespace l hlA
    simp only [List.get_eq_getElem] at hne ⊢
    rw [Option.some.inj hopt]
    exact hne
  rw [hS, List.rdropWhile_idempotent]

theorem pyStrip_idem (s : String) : pyStrip (pyStrip s) = pyStrip s := by
  show String.mk (pyStripList (pyStripList s.data)) = String.mk (pyStripList s.data)
  rw [pyStripList_idem]

theorem pyStrip_empty : pyStrip "" = "" := by decide

theorem getF_stripped (row : Row) (keys : List String) :
    pyStrip (getF row keys) = getF row keys := by
  induction keys with
  | nil => exact pyStrip_empty
  | cons k ks ih =>
    simp only [getF]
    cases h : lookupRow row k with
    | none => exact ih
    | some v =>
      cases v with
      | none => exact ih
      | some x =>
        by_cases hx : pyStrip x = ""
        · simp [hx, ih]
        · simp [hx, pyStrip_idem]

theorem getF_eq_findSome (row : Row) (keys : List String) :
    getF row keys = (keys.findSome? (tryKey row)).getD "" := by
  induction keys with
  | nil => rfl
  | cons k ks ih =>
    simp only [getF, tryKey, List.findSome?_cons]
    cases h : lookupRow row k with
    | none => simpa using ih
    | some v =>
      cases v with
      | none => simpa using ih
      | some x =>
        by_cases hx : pyStrip x = ""
        · simp [hx, ih]
        · simp [hx]

theorem rowIsMinor_eq_signals (row : Row) :
    rowIsMinorDefendido row = (docTypeSignal row || ageSignal row || flagSignal row) := by
  simp only [rowIsMinorDefendido, docTypeSignal, ageSignal, flagSignal]
  cases hA : toIntFiltered (getF row H_EDAD) with
  | none =>
    by_cases h1 : stripAccentsLower (getF row H_TIPO_DOC) ∈ tiSet <;>
      by_cases h3 : stripAccentsLower (getF row H_ES_MENOR) ∈ minorFlagSet <;>
        simp [h1, h3]
  | some e =>
    by_cases h1 : stripAccentsLower (getF row H_TIPO_DOC) ∈ tiSet <;>
      by_cases h3 : stripAccentsLower (getF row H_ES_MENOR) ∈ minorFlagSet <;>
        cases hb : (decide (0 ≤ e) && decide (e < 18)) <;>
          simp [h1, h3, hb]

theorem cardFor_isPerCase (defStr supStr : String) (i : Nat) (r : Row) :
    isPerCaseCard (cardFor defStr supStr i r) = true := by
  unfold cardFor
  by_cases h : rowIsMinorDefendido r <;> simp [h, isPerCaseCard]

theorem matchesFor_cons_isEmpty_false (rows : List Row) (ced : String) (m : Row)
    (rest : List Row) (hm : matchesFor rows ced = m :: rest) : rows.isEmpty = false := by
  cases rows with
  | nil => simp [matchesFor] at hm
  | cons a t => rfl

theorem runBody_allMinor (rows : List Row) (cedIn : Option String) (m : Row) (rest : List Row)
    (hced : digits cedIn ≠ "")
    (hm : matchesFor rows (digits cedIn) = m :: rest)
    (hall : (m :: rest).all rowIsMinorDefendido = true) :
    runBody rows cedIn =
      ⟨[.minorSummary (defenderStr m) (supervisorStr m), .followUp], [slotClear], []⟩ := by
  have hrows := matchesFor_cons_isEmpty_false rows (digits cedIn) m rest hm
  simp [runBody, hrows, hced, hm, hall]

theorem runBody_mixed (rows : List Row) (cedIn : Option String) (m : Row) (rest : List Row)
    (hced : digits cedIn ≠ "")
    (hm : matchesFor rows (digits cedIn) = m :: rest)
    (hmix : (m :: rest).all rowIsMinorDefendido = false) :
    runBody rows cedIn =
      ⟨.adultHeader (defenderStr m)
          (if supervisorAvailable m then some (supervisorStr m) else none) ::
          ((m :: rest).enumFrom 1).map
            (fun p => cardFor (defenderStr m) (supervisorStr m) p.1 p.2) ++
          [.followUp],
        [slotClear], []⟩ := by
  have hrows := matchesFor_cons_isEmpty_false rows (digits cedIn) m rest hm
  simp [runBody, hrows, hced, hm, hmix]

theorem run_noFault (rows : List Row) (cedIn : Option String) :
    run rows cedIn false = runBody rows cedIn := rfl

-- ------------------------- Claim theorems -------------------------

/-- C1: for every non-empty Match Set whose records are all classified
minor, the lookup emits exactly one redacted summary fragment — carrying
only the minor-case notice plus the defender and supervisor contact
strings — emits no per-case card, and no emitted fragment carries any
case-specific field (case number, department, municipality, court, date,
offense, capture, measure, facility). -/
theorem C1_allMinor_single_redacted_summary
    (rows : List Row) (cedIn : Option String) (m : Row) (rest : List Row)
    (hced : digits cedIn ≠ "")
    (hm : matchesFor rows (digits cedIn) = m :: rest)
    (hall : (m :: rest).all rowIsMinorDefendido = true) :
    (run rows cedIn false).frags =
        [.minorSummary (defenderStr m) (supervisorStr m), .followUp] ∧
      (run rows cedIn false).frags.countP isRedactedSummary = 1 ∧
      (run rows cedIn false).frags.countP isPerCaseCard = 0 ∧
      ∀ f ∈ (run rows cedIn false).frags, hasCaseFields f = false := by
  rw [run_noFault, runBody_allMinor rows cedIn m rest hced hm hall]
  refine ⟨rfl, ?_, ?_, ?_⟩
  · simp [List.countP_cons, isRedactedSummary]
  · simp [List.countP_cons, isPerCaseCard]
  · intro f hf
    simp only [List.mem_cons, List.not_mem_nil, or_false] at hf
    rcases hf with rfl | rfl <;> rfl

/-- Witness for C1: a one-record store whose subject holds a TI document. -/
theorem C1_witness :
    (run [wrowTI] (some "123.456.78") false).frags =
      [.minorSummary (defenderStr wrowTI) (supervisorStr wrowTI), .followUp] :=
  (C1_allMinor_single_redacted_summary [wrowTI] (some "123.456.78") wrowTI []
    (by decide) (by decide) (by decide)).1

/-- C2 counterexample: with an empty Store, the lookup does emit the single
service-unavailable fragment, but — contrary to the claim — it does
explicitly clear the identifier slot: the returned event list is exactly
the slot-clear signal. -/
theorem C2_counterexample :
    (run [] (some "12345678") false).frags = [Frag.serviceUnavailable] ∧
      (run [] (some "12345678") false).events =
        [Event.slotSet "numero_identificacion" none] :=
  ⟨rfl, rfl⟩

/-- C2 (amended): for every lookup call made when the Store is empty, the
lookup emits a single service-unavailable fragment, ends, and returns the
slot-clear signal for the identifier slot. -/
theorem C2_amended_empty_store (cedIn : Option String) :
    run [] cedIn false = ⟨[.serviceUnavailable], [slotClear], []⟩ := rfl

/-- C3: the minor-status classifier is exactly the disjunction of the
document-type signal (accent-stripped lower-cased type in `tiSet`), the
age signal (parseable age in `[0, 18)`), and the explicit-flag signal
(accent-stripped lower-cased flag in `minorFlagSet`); a `TI` document type
forces a minor classification regardless of the other fields; an
unparseable age leaves the classification to the other two signals; and
the classification is monotone in the three signals. -/
theorem C3_minor_classifier_characterization :
    (∀ row : Row,
        rowIsMinorDefendido row = (docTypeSignal row || ageSignal row || flagSignal row)) ∧
      (∀ row : Row, docTypeSignal row = true → rowIsMinorDefendido row = true) ∧
      (∀ row : Row, toIntFiltered (getF row H_EDAD) = none →
        rowIsMinorDefendido row = (docTypeSignal row || flagSignal row)) ∧
      ∀ r r' : Row, docTypeSignal r ≤ docTypeSignal r' → ageSignal r ≤ ageSignal r' →
        flagSignal r ≤ flagSignal r' → rowIsMinorDefendido r ≤ rowIsMinorDefendido r' := by
  have hmono : ∀ a a' b b' c c' : Bool,
      a ≤ a' → b ≤ b' → c ≤ c' → (a || b || c) ≤ (a' || b' || c') := by decide
  refine ⟨rowIsMinor_eq_signals, ?_, ?_, ?_⟩
  · intro row h
    rw [rowIsMinor_eq_signals, h]
    rfl
  · intro row h
    rw [rowIsMinor_eq_signals]
    simp only [ageSignal, h]
    simp
  · intro r r' h1 h2 h3
    rw [rowIsMinor_eq_signals, rowIsMinor_eq_signals]
    exact hmono _ _ _ _ _ _ h1 h2 h3

/-- Witness for C3: the TI row is classified minor via the document-type
signal alone. -/
theorem C3_witness :
    docTypeSignal wrowTI = true ∧ rowIsMinorDefendido wrowTI = true :=
  ⟨by decide, C3_minor_classifier_characterization.2.1 wrowTI (by decide)⟩

/-- C5: identifier normalization keeps exactly the decimal-digit characters
(in order, a subsequence of the input), returns the empty string for null
input and for input without digits, and identifies identifiers that differ
only in non-digit characters — e.g. "313-844-7735" and "3138447735". -/
theorem C5_digit_normalization :
    digits none = "" ∧
      digits (some "") = "" ∧
      (∀ s : String, (digitsStr s).data = s.data.filter Char.isDigit) ∧
      (∀ s : String, (digitsStr s).data.Sublist s.data) ∧
      (∀ s : String, s.data.filter Char.isDigit = [] → digitsStr s = "") ∧
      (∀ s t : String, s.data.filter Char.isDigit = t.data.filter Char.isDigit →
        digitsStr s = digitsStr t) ∧
      digitsStr "313-844-7735" = digitsStr "3138447735" := by
  refine ⟨rfl, rfl, fun s => rfl, fun s => List.filter_sublist _, ?_, ?_, by decide⟩
  · intro s h
    show String.mk (s.data.filter Char.isDigit) = ""
    rw [h]
  · intro s t h
    show String.mk (s.data.filter Char.isDigit) = String.mk (t.data.filter Char.isDigit)
    rw [h]

/-- Witness for C5: punctuation-insensitivity at the phone-number pair. -/
theorem C5_witness :
    "313-844-7735".data.filter Char.isDigit = "3138447735".data.filter Char.isDigit ∧
      digitsStr "313-844-7735" = digitsStr "3138447735" :=
  ⟨by decide, C5_digit_normalization.2.2.2.2.2.1 "313-844-7735" "3138447735" (by decide)⟩

/-- C4: for every non-empty Match Set with at least one non-minor record,
the lookup emits one header fragment (defender always, supervisor line
exactly when the supervisor name or email resolves to a value), then
exactly one card per matched record in the original store order (the Match
Set is an order-preserving sublist of the store) — a redacted card for
minors, a full detail card otherwise — then one follow-up fragment. -/
theorem C4_mixed_header_cards_followup
    (rows : List Row) (cedIn : Option String) (m : Row) (rest : List Row)
    (hced : digits cedIn ≠ "")
    (hm : matchesFor rows (digits cedIn) = m :: rest)
    (hmix : (m :: rest).all rowIsMinorDefendido = false) :
    (run rows cedIn false).frags =
        .adultHeader (defenderStr m)
            (if supervisorAvailable m then some (supervisorStr m) else none) ::
          ((m :: rest).enumFrom 1).map
            (fun p => cardFor (defenderStr m) (supervisorStr m) p.1 p.2) ++
          [.followUp] ∧
      (run rows cedIn false).events = [slotClear] ∧
      (run rows cedIn false).frags.length = (m :: rest).length + 2 ∧
      (run rows cedIn false).frags.countP isPerCaseCard = (m :: rest).length ∧
      (matchesFor rows (digits cedIn)).Sublist rows ∧
      ∀ j : Nat, j < (m :: rest).length →
        (run rows cedIn false).frags[j + 1]? =
          ((m :: rest)[j]?).map (fun r => cardFor (defenderStr m) (supervisorStr m) (j + 1) r) := by
  rw [run_noFault, runBody_mixed rows cedIn m rest hced hm hmix]
  refine ⟨rfl, rfl, ?_, ?_, ?_, ?_⟩
  · simp
  · have hall : ∀ f ∈ ((m :: rest).enumFrom 1).map
        (fun p => cardFor (defenderStr m) (supervisorStr m) p.1 p.2),
        isPerCaseCard f = true := by
      intro f hf
      rw [List.mem_map] at hf
      obtain ⟨p, _, rfl⟩ := hf
      exact cardFor_isPerCase _ _ _ _
    simp only [List.countP_cons, List.countP_append]
    rw [List.countP_eq_length.mpr hall]
    simp [isPerCaseCard]
  · rw [hm]
    have := List.filter_sublist
      (p := fun r => digitsStr (getF r H_ID) == digits cedIn) (l := rows)
    rw [← matchesFor, hm] at this
    exact this
  · intro j hj
    have hjlen : j < (((m :: rest).enumFrom 1).map
        (fun p => cardFor (defenderStr m) (supervisorStr m) p.1 p.2)).length := by
      simpa using hj
    have hfun : ((fun p : Nat × Row => cardFor (defenderStr m) (supervisorStr m) p.1 p.2) ∘
        fun a : Row => (1 + j, a)) =
        fun r : Row => cardFor (defenderStr m) (supervisorStr m) (j + 1) r := by
      funext r
      simp [Function.comp, Nat.add_comm]
    simp only [List.getElem?_cons_succ, List.getElem?_append, List.getElem?_map,
      List.getElem?_enumFrom, Option.map_map, hfun]
    simp [hj]
    intro hcontra
    exfalso
    simp only [List.length_cons] at hj
    omega

/-- Witness for C4: a two-record store for one adult identifier. -/
theorem C4_witness :
    (run [wrowCC, wrowCC] (some "99999999") false).frags =
      .adultHeader (defenderStr wrowCC)
          (if supervisorAvailable wrowCC then some (supervisorStr wrowCC) else none) ::
        (([wrowCC, wrowCC] : List Row).enumFrom 1).map
          (fun p => cardFor (defenderStr wrowCC) (supervisorStr wrowCC) p.1 p.2) ++
        [.followUp] :=
  (C4_mixed_header_cards_followup [wrowCC, wrowCC] (some "99999999") wrowCC [wrowCC]
    (by decide) (by decide) (by decide)).1

/-- C6: whenever an unexpected exception is raised during lookup
composition (the fault-injected execution), the lookup catches it, logs a
diagnostic, emits the single generic try-again-later fragment, and still
returns the slot-clear signal; `run` being a total function, no exception
propagates to the invoker on any input. -/
theorem C6_fault_caught_logged_slot_cleared (rows : List Row) (cedIn : Option String) :
    (run rows cedIn true).frags = [Frag.tryAgain] ∧
      (run rows cedIn true).events = [slotClear] ∧
      (run rows cedIn true).logs ≠ [] := by
  refine ⟨rfl, rfl, by simp [run]⟩

/-- C7: when the raw identifier digit-normalizes to the empty string and
the Store is non-empty, the lookup emits only the missing-identifier
prompt and returns no events at all: in particular no slot-clear signal,
and no slot is mutated on this path. -/
theorem C7_missing_identifier_no_events (rows : List Row) (cedIn : Option String)
    (hrows : rows ≠ []) (hced : digits cedIn = "") :
    run rows cedIn false = ⟨[Frag.missingId], [], []⟩ := by
  have hne : rows.isEmpty = false := by
    cases rows with
    | nil => exact absurd rfl hrows
    | cons a t => rfl
  rw [run_noFault]
  simp [runBody, hne, hced]

/-- Witness for C7: a non-empty store and an identifier with no digits. -/
theorem C7_witness :
    run [wrowTI] (some "abc") false = ⟨[Frag.missingId], [], []⟩ :=
  C7_missing_identifier_no_events [wrowTI] (some "abc") (by decide) (by decide)

/-- C8: when the loader cache is cold and the backing file is absent, the
loader returns an empty Store, caches the empty result, and records an
operator-visible diagnostic; `loadRows` is a total function, so no
exception is raised on this path. -/
theorem C8_missing_file_empty_store (st : LoadState) (file : Option (List Row))
    (hcache : st.rowsCache = none) (hfile : file = none) :
    (loadRows st file).1 = [] ∧
      (loadRows st file).2.1 = ⟨some []⟩ ∧
      (loadRows st file).2.2 ≠ [] := by
  subst hfile
  obtain ⟨c⟩ := st
  cases hcache
  refine ⟨rfl, rfl, by simp [loadRows]⟩

/-- Witness for C8: cold cache, absent file. -/
theorem C8_witness :
    (loadRows ⟨none⟩ none).1 = [] ∧
      (loadRows ⟨none⟩ none).2.1 = ⟨some []⟩ ∧
      (loadRows ⟨none⟩ none).2.2 ≠ [] :=
  C8_missing_file_empty_store ⟨none⟩ none rfl rfl

/-- C9: field resolution equals the first alias, in listed order, whose
value is present and non-blank after trimming (`""` when none is); and the
display wrapper returns the `"NA"` sentinel on a blank input, the trimmed
value itself on a non-blank input, and never the empty string — in
particular it maps an unresolved (empty) resolution to the sentinel and a
resolved one to itself. -/
theorem C9_field_resolution_and_sentinel :
    (∀ (row : Row) (keys : List String),
        getF row keys = (keys.findSome? (tryKey row)).getD "") ∧
      (∀ x : String, pyStrip x = "" → val x = "NA") ∧
      (∀ x : String, pyStrip x ≠ "" → val x = pyStrip x) ∧
      (∀ x : String, val x ≠ "") ∧
      (∀ (row : Row) (keys : List String), getF row keys = "" → val (getF row keys) = "NA") ∧
      (∀ (row : Row) (keys : List String), getF row keys ≠ "" →
        val (getF row keys) = getF row keys) := by
  have hblank : ∀ x : String, pyStrip x = "" → val x = "NA" := by
    intro x h
    simp [val, h]
  have hnon : ∀ x : String, pyStrip x ≠ "" → val x = pyStrip x := by
    intro x h
    simp [val, h]
  refine ⟨getF_eq_findSome, hblank, hnon, ?_, ?_, ?_⟩
  · intro x
    simp only [val]
    by_cases h : pyStrip x = ""
    · simp [h]
    · simp [h]
  · intro row keys h
    apply hblank
    rw [getF_stripped, h]
  · intro row keys h
    have := hnon (getF row keys) (by rw [getF_stripped]; exact h)
    rw [getF_stripped] at this
    exact this

/-- Witness for C9: a blank value is displayed as the sentinel. -/
theorem C9_witness : val " " = "NA" :=
  C9_field_resolution_and_sentinel.2.1 " " (by decide)

/-- C10: the identifier-form validator digit-normalizes the slot value and
accepts exactly when the digit string has 6 to 12 characters, storing that
digit string; otherwise it emits a re-prompt and sets the slot to `None`.
Consequently any accepted value is a pure digit string of 6 to 12
characters. -/
theorem C10_validator_length_window (sv : Option String) :
    ((6 ≤ (digits sv).length ∧ (digits sv).length ≤ 12) →
        validateNumeroIdentificacion sv = (some (digits sv), [])) ∧
      (¬(6 ≤ (digits sv).length ∧ (digits sv).length ≤ 12) →
        (validateNumeroIdentificacion sv).1 = none ∧
          (validateNumeroIdentificacion sv).2 ≠ []) ∧
      ∀ v : String, (validateNumeroIdentificacion sv).1 = some v →
        v = digits sv ∧ (∀ c ∈ v.data, c.isDigit = true) ∧ 6 ≤ v.length ∧ v.length ≤ 12 := by
  refine ⟨?_, ?_, ?_⟩
  · intro h
    simp [validateNumeroIdentificacion, h]
  · intro h
    simp [validateNumeroIdentificacion, h]
  · intro v hv
    by_cases h : 6 ≤ (digits sv).length ∧ (digits sv).length ≤ 12
    · simp only [validateNumeroIdentificacion, if_pos h] at hv
      obtain rfl : digits sv = v := Option.some.inj hv
      refine ⟨rfl, ?_, h.1, h.2⟩
      intro c hc
      have : c ∈ ((sv.getD "").data.filter Char.isDigit) := hc
      exact (List.mem_filter.mp this).2
    · simp [validateNumeroIdentificacion, if_neg h] at hv

/-- Witness for C10: a punctuated phone-style identifier is accepted and
stored as its 10-character digit string. -/
theorem C10_witness :
    validateNumeroIdentificacion (some "313-844-7735") =
      (some (digits (some "313-844-7735")), []) :=
  (C10_validator_length_window (some "313-844-7735")).1 (by decide)
